import Mathlib

set_option maxRecDepth 10000

/-! # BitrixTracker: verification of the workday and pomodoro logic

Shallow embedding of the state logic of the BitrixTracker repository: the
TIME_LEAKS parser (src/utils/time_parser.py), the pomodoro state machine
(src/core/pomodoro.py, duplicated verbatim inside src/bitrix_tracker.py), the
workday manager (src/core/workday.py, mirrored by src/bitrix_tracker.py), the
resume endpoint choice (src/core/bitrix_client.py, src/bitrix_tracker.py and
src/bitrix_tracker_refactored.py) and the pomodoro auto-pause gate of
src/bitrix_tracker.py. Remote HTTP interactions are modelled by passing the
fetched status values and the boolean call results as explicit parameters;
wall-clock instants are integers counting seconds, so Python float divisions
by 3600 compare exactly against integer thresholds. String splitting and
Python int() are modelled by structural recursion on character lists so that
every definition evaluates inside the kernel. -/

namespace BitrixTracker

/-- Model of Python str.split with a single colon separator: every colon
starts a new field, empty fields are kept, and the empty string yields one
empty field. -/
def splitOnColon : List Char → List (List Char)
  | [] => [[]]
  | c :: rest =>
    if c = ':' then [] :: splitOnColon rest
    else
      match splitOnColon rest with
      | g :: gs => (c :: g) :: gs
      | [] => [[c]]

/-- Accumulator pass turning a run of decimal digits into a number. -/
def digitsVal : List Char → Nat → Nat
  | [], acc => acc
  | c :: rest, acc => digitsVal rest (acc * 10 + (c.toNat - 48))

/-- A nonempty all-digit character run read as a natural number; none
otherwise. -/
def digitsToNat? (l : List Char) : Option Nat :=
  if l ≠ [] ∧ l.all Char.isDigit then some (digitsVal l 0) else none

/-- Surrounding whitespace removed, as Python int() does before parsing. -/
def trimChars (l : List Char) : List Char :=
  ((l.dropWhile Char.isWhitespace).reverse.dropWhile Char.isWhitespace).reverse

/-- Model of Python int() applied to a string: surrounding whitespace is
ignored, an optional single leading sign precedes a nonempty run of digits;
none models a raised ValueError. Digit-group underscores are not modelled. -/
def pyIntOfChars? (s : List Char) : Option Int :=
  match trimChars s with
  | '-' :: rest => (digitsToNat? rest).map (fun n => -(n : Int))
  | '+' :: rest => (digitsToNat? rest).map (fun n => (n : Int))
  | t => (digitsToNat? t).map (fun n => (n : Int))

/-- Validation and final arithmetic of parse_time_leaks from
src/utils/time_parser.py, applied to the int() results of the colon-separated
fields: exactly three successfully parsed fields are required, negative
components and minute or second components of 60 or more yield 0, otherwise
the triple is combined into seconds. -/
def timeLeaksFields : List (Option Int) → Nat
  | [some h, some m, some s] =>
    if h < 0 ∨ m < 0 ∨ s < 0 then 0
    else if 60 ≤ m ∨ 60 ≤ s then 0
    else (h * 3600 + m * 60 + s).toNat
  | _ => 0

/-- parse_time_leaks from src/utils/time_parser.py. The argument none models a
None or non-string value (the isinstance guard); a string argument is split on
colons and handled by timeLeaksFields. -/
def parse_time_leaks : Option String → Nat
  | none => 0
  | some s =>
    if s = "" then 0
    else timeLeaksFields ((splitOnColon s.toList).map pyIntOfChars?)

/-- The malformed-input classes the specification enumerates for
parse_time_leaks, expressed on the same model: a missing or non-string value,
an empty string, not exactly three colon-separated fields, a field rejected by
int(), a negative component, or a minute or second component of 60 or more. -/
def isMalformedTimeLeaks : Option String → Bool
  | none => true
  | some s =>
    if s = "" then true
    else
      match (splitOnColon s.toList).map pyIntOfChars? with
      | [some h, some m, some s] => decide (h < 0 ∨ m < 0 ∨ s < 0) || decide (60 ≤ m ∨ 60 ≤ s)
      | _ => true

/-- The four states of the pomodoro timer (src/core/pomodoro.py). -/
inductive PomodoroState
  | stopped
  | work
  | shortBreak
  | longBreak
deriving DecidableEq

/-- The pomodoro configuration values the timer reads from its config
dictionary; the source defaults are work_duration 25, short_break 5,
long_break 15 and pomodoros_until_long_break 4, all durations in minutes. -/
structure PomodoroConfig where
  work_duration : Nat
  short_break : Nat
  long_break : Nat
  pomodoros_until_long_break : Nat
deriving DecidableEq

/-- The mutable fields of PomodoroTimer: state, remaining_seconds,
pomodoro_count and is_running. -/
structure PomodoroTimer where
  state : PomodoroState
  remaining_seconds : Int
  pomodoro_count : Nat
  is_running : Bool
deriving DecidableEq

/-- The field values set by PomodoroTimer.__init__. -/
def pomodoroInit : PomodoroTimer :=
  ⟨PomodoroState.stopped, 0, 0, false⟩

/-- PomodoroTimer.start: enter work with the full work duration; the
completed-session count is not touched. -/
def pomodoroStart (cfg : PomodoroConfig) (t : PomodoroTimer) : PomodoroTimer :=
  { t with state := PomodoroState.work,
           remaining_seconds := (cfg.work_duration : Int) * 60,
           is_running := true }

/-- PomodoroTimer.stop: back to stopped, count reset. -/
def pomodoroStop (t : PomodoroTimer) : PomodoroTimer :=
  { t with state := PomodoroState.stopped, remaining_seconds := 0,
           is_running := false, pomodoro_count := 0 }

/-- PomodoroTimer._start_break: the long break is chosen when the current
completed-session count is a multiple of the configured cadence. -/
def startBreak (cfg : PomodoroConfig) (t : PomodoroTimer) : PomodoroTimer :=
  if t.pomodoro_count % cfg.pomodoros_until_long_break = 0 then
    { t with state := PomodoroState.longBreak,
             remaining_seconds := (cfg.long_break : Int) * 60 }
  else
    { t with state := PomodoroState.shortBreak,
             remaining_seconds := (cfg.short_break : Int) * 60 }

/-- PomodoroTimer._end_break: back to work with the full work duration. -/
def endBreak (cfg : PomodoroConfig) (t : PomodoroTimer) : PomodoroTimer :=
  { t with state := PomodoroState.work,
           remaining_seconds := (cfg.work_duration : Int) * 60 }

/-- PomodoroTimer.skip: work jumps into a break, a break jumps back to work,
stopped is unchanged; the count is never touched. -/
def pomodoroSkip (cfg : PomodoroConfig) (t : PomodoroTimer) : PomodoroTimer :=
  match t.state with
  | PomodoroState.work => startBreak cfg t
  | PomodoroState.shortBreak => endBreak cfg t
  | PomodoroState.longBreak => endBreak cfg t
  | PomodoroState.stopped => t

/-- PomodoroTimer.tick: when running, decrement remaining_seconds; at zero or
below, a work session completes (count incremented, break started) or a break
ends. -/
def pomodoroTick (cfg : PomodoroConfig) (t : PomodoroTimer) : PomodoroTimer :=
  if t.is_running then
    let t1 := { t with remaining_seconds := t.remaining_seconds - 1 }
    if t1.remaining_seconds ≤ 0 then
      match t.state with
      | PomodoroState.work =>
        startBreak cfg { t1 with pomodoro_count := t1.pomodoro_count + 1 }
      | PomodoroState.shortBreak => endBreak cfg t1
      | PomodoroState.longBreak => endBreak cfg t1
      | PomodoroState.stopped => t1
    else t1
  else t

/-- True on the two break states. -/
def isBreakState : PomodoroState → Bool
  | PomodoroState.shortBreak => true
  | PomodoroState.longBreak => true
  | _ => false

/-- The tick-only run of the pomodoro timer: started once from the initial
state, then one tick per step; alongside the timer state the list of break
states entered (a step whose state goes from work into a break appends that
break state) is collected in order. -/
def runWithBreaks (cfg : PomodoroConfig) : Nat → PomodoroTimer × List PomodoroState
  | 0 => (pomodoroStart cfg pomodoroInit, [])
  | n + 1 =>
    let p := runWithBreaks cfg n
    let t2 := pomodoroTick cfg p.1
    (t2, p.2 ++ (if p.1.state = PomodoroState.work ∧ isBreakState t2.state = true
                 then [t2.state] else []))

/-- Concrete configuration for counterexample runs: one-minute work and break
durations, long break every 2 pomodoros. -/
def cexPomodoroConfig : PomodoroConfig := ⟨1, 1, 1, 2⟩

/-- The local workday fields of WorkdayManager (src/core/workday.py):
start_time, is_running, is_paused, time_leaks_seconds and pause_start_time.
Instants count seconds; time_leaks_seconds only ever holds parse_time_leaks
results or 0, hence a natural number. -/
structure LocalWorkdayState where
  start_time : Option Int
  is_running : Bool
  is_paused : Bool
  time_leaks_seconds : Nat
  pause_start_time : Option Int
deriving DecidableEq

/-- The fields of the remote timeman.status result that the tracker reads.
TIME_START is modelled already parsed to an instant (none for a missing or
empty value); TIME_LEAKS and TIME_FINISH stay raw optional strings. -/
structure RemoteWorkdayStatus where
  STATUS : String
  TIME_START : Option Int
  TIME_LEAKS : Option String
  TIME_FINISH : Option String
deriving DecidableEq

/-- Python truthiness of an optional string value: present and nonempty. -/
def pyTruthyStr : Option String → Bool
  | none => false
  | some s => decide (s ≠ "")

/-- WorkdayManager.get_work_time: zero unless running with a start time;
otherwise elapsed seconds minus the cached leak total, clamped at zero,
rendered with Python floor division and modulo (Int.fdiv and Int.fmod). -/
def get_work_time (st : LocalWorkdayState) (now : Int) : Int × Int × Int :=
  match st.is_running, st.start_time with
  | true, some t0 =>
    let ws : Int := (now - t0) - (st.time_leaks_seconds : Int)
    let work_seconds : Int := if ws < 0 then 0 else ws
    (work_seconds.fdiv 3600, ((work_seconds.fmod 3600).fdiv 60, work_seconds.fmod 60))
  | _, _ => (0, (0, 0))

/-- WorkdayManager.get_pause_time: zero unless paused with a pause start;
otherwise the cached leak total plus the seconds elapsed since the pause began,
rendered with Python floor division and modulo. -/
def get_pause_time (st : LocalWorkdayState) (now : Int) : Int × Int × Int :=
  match st.is_paused, st.pause_start_time with
  | true, some p =>
    let pause_seconds : Int := (st.time_leaks_seconds : Int) + (now - p)
    (pause_seconds.fdiv 3600, ((pause_seconds.fmod 3600).fdiv 60, pause_seconds.fmod 60))
  | _, _ => (0, (0, 0))

/-- Outcome of WorkdayManager.start: the returned boolean, the local state
after the call, and whether the remote timeman.open call was issued. -/
structure StartOutcome where
  ok : Bool
  st : LocalWorkdayState
  openCalled : Bool
deriving DecidableEq

/-- The open-a-new-day path of WorkdayManager.start: issue timeman.open (its
result is openOk); on success refetch the status (newStatus) and take the
start instant and pause accumulator from it, or fall back to now and 0 when
that fetch yields nothing usable; on failure return False without mutation. -/
def workdayOpenNewDay (st : LocalWorkdayState) (openOk : Bool)
    (newStatus : Option RemoteWorkdayStatus) (now : Int) : StartOutcome :=
  if openOk then
    match newStatus with
    | some ns =>
      match ns.TIME_START with
      | some t1 =>
        ⟨true,
         { st with
           start_time := some t1,
           time_leaks_seconds := parse_time_leaks (some (ns.TIME_LEAKS.getD "00:00:00")),
           is_running := true, is_paused := false },
         true⟩
      | none =>
        ⟨true,
         { st with start_time := some now, time_leaks_seconds := 0,
                   is_running := true, is_paused := false },
         true⟩
    | none =>
      ⟨true,
       { st with start_time := some now, time_leaks_seconds := 0,
                 is_running := true, is_paused := false },
       true⟩
  else ⟨false, st, true⟩

/-- WorkdayManager.start with the remote interaction passed in: fetch the
status; with a set TIME_START, a CLOSED day or one started more than 24 hours
(86400 seconds) ago opens a new day, anything else adopts the remote day
(paused, with the pause clock anchored at now, exactly when the remote STATUS
is PAUSED); without a status or TIME_START a new day is opened. Without a
configured webhook the call fails untouched. -/
def workdayStart (webhook : Bool) (st : LocalWorkdayState)
    (status : Option RemoteWorkdayStatus) (openOk : Bool)
    (newStatus : Option RemoteWorkdayStatus) (now : Int) : StartOutcome :=
  if webhook then
    match status with
    | some s =>
      match s.TIME_START with
      | some t0 =>
        if s.STATUS = "CLOSED" ∨ 86400 < now - t0 then
          workdayOpenNewDay st openOk newStatus now
        else if s.STATUS = "PAUSED" then
          ⟨true,
           { st with
             start_time := some t0,
             time_leaks_seconds := parse_time_leaks (some (s.TIME_LEAKS.getD "00:00:00")),
             is_running := true, is_paused := true, pause_start_time := some now },
           false⟩
        else
          ⟨true,
           { st with
             start_time := some t0,
             time_leaks_seconds := parse_time_leaks (some (s.TIME_LEAKS.getD "00:00:00")),
             is_running := true, is_paused := false },
           false⟩
      | none => workdayOpenNewDay st openOk newStatus now
    | none => workdayOpenNewDay st openOk newStatus now
  else ⟨false, st, false⟩

/-- WorkdayManager.reset: clear start_time, time_leaks_seconds and
pause_start_time (the running and paused flags are not touched here). -/
def workdayResetState (st : LocalWorkdayState) : LocalWorkdayState :=
  { st with start_time := none, time_leaks_seconds := 0, pause_start_time := none }

/-- WorkdayManager.pause as a function of the fetched status and the result of
the timeman.pause call: a missing status or a failing call returns False with
the state untouched; success marks the day paused, anchors the pause clock at
now and adopts the remote TIME_LEAKS. -/
def workdayPause (st : LocalWorkdayState) (status : Option RemoteWorkdayStatus)
    (pauseOk : Bool) (now : Int) : Bool × LocalWorkdayState :=
  match status with
  | none => (false, st)
  | some s =>
    if pauseOk then
      (true,
       { st with
         is_paused := true, pause_start_time := some now,
         time_leaks_seconds := parse_time_leaks (some (s.TIME_LEAKS.getD "00:00:00")) })
    else (false, st)

/-- The endpoint chosen by BitrixClient.resume_workday (the identical branch
appears in resume_workday and on_pomodoro_break_end of src/bitrix_tracker.py):
timeman.open when the fetched status is truthy and carries a set TIME_FINISH,
timeman.pause otherwise. -/
def resumeEndpointChoice (status : Option RemoteWorkdayStatus) : String :=
  match status with
  | some s => if pyTruthyStr s.TIME_FINISH = true then "timeman.open" else "timeman.pause"
  | none => "timeman.pause"

/-- The endpoint used by BitrixWorkdayTracker.resume_workday of
src/bitrix_tracker_refactored.py: it calls Bitrix24Client.pause_workday
unconditionally, so the POST always goes to timeman.pause and no status is
consulted. -/
def refactoredResumeEndpoint : String := "timeman.pause"

/-- WorkdayManager.resume as a function of the status fetched before the call,
the result of the chosen remote call and the status fetched afterwards; the
third component records the endpoint chosen. Success requires the call to
succeed and the after-status to be OPENED, and only then is the local state
mutated (leak total adopted, pause cleared). -/
def workdayResume (st : LocalWorkdayState) (statusBefore : Option RemoteWorkdayStatus)
    (callOk : Bool) (statusAfter : Option RemoteWorkdayStatus) :
    Bool × LocalWorkdayState × String :=
  let endpoint := resumeEndpointChoice statusBefore
  if callOk then
    match statusAfter with
    | some sa =>
      if sa.STATUS = "OPENED" then
        (true,
         { st with
           time_leaks_seconds := parse_time_leaks (some (sa.TIME_LEAKS.getD "00:00:00")),
           is_paused := false, pause_start_time := none },
         endpoint)
      else (false, st, endpoint)
    | none => (false, st, endpoint)
  else (false, st, endpoint)

/-- WorkdayManager.stop as a function of the fetched status and the result of
the timeman.close call: a missing status fails without mutation; a status
already CLOSED resets the accumulators and reports success; a successful close
clears the running and paused flags and resets; a failing close call is
treated as an already closed day — the state is reset and success reported. -/
def workdayStop (st : LocalWorkdayState) (status : Option RemoteWorkdayStatus)
    (closeOk : Bool) : Bool × LocalWorkdayState :=
  match status with
  | none => (false, st)
  | some s =>
    if s.STATUS = "CLOSED" then (true, workdayResetState st)
    else if closeOk then
      (true, workdayResetState { st with is_running := false, is_paused := false })
    else (true, workdayResetState st)

/-- The pomodoro-related settings of the tracker config relevant to automatic
workday pausing: the boolean auto_pause_bitrix (default True, the only field
on_pomodoro_break_start and on_pomodoro_break_end read) and the three-valued
bitrix_pause_mode stored by the settings window and the database (values
never, long_breaks_only, all_breaks). -/
structure TrackerPomodoroSettings where
  auto_pause_bitrix : Bool
  bitrix_pause_mode : String
deriving DecidableEq

/-- Whether on_pomodoro_break_start of src/bitrix_tracker.py issues the remote
timeman.pause POST: exactly when auto_pause_bitrix is set and the workday is
running and not paused; the break state argument and the bitrix_pause_mode
setting are not consulted. -/
def onBreakStartIssuesPause (cfg : TrackerPomodoroSettings) (running paused : Bool)
    (break_state : PomodoroState) : Bool :=
  cfg.auto_pause_bitrix && running && !paused

/-- Whether on_pomodoro_break_end of src/bitrix_tracker.py issues the remote
resume POST: exactly when auto_pause_bitrix is set and the workday is running
and paused; bitrix_pause_mode is not consulted. -/
def onBreakEndIssuesResume (cfg : TrackerPomodoroSettings) (running paused : Bool) : Bool :=
  cfg.auto_pause_bitrix && running && paused

/-- Sample local state of a running, unpaused workday with a cached leak total
of 300 seconds. -/
def sampleRunningState : LocalWorkdayState := ⟨some 0, true, false, 300, none⟩

/-- Sample local state of a paused workday: paused at instant 1000 with a
cached leak total of 600 seconds. -/
def samplePausedState : LocalWorkdayState := ⟨some 0, true, true, 600, some 1000⟩

/-- Sample remote status of an open day started at instant 100 with ten
minutes of recorded pauses. -/
def sampleOpenStatus : RemoteWorkdayStatus :=
  ⟨"OPENED", some 100, some "00:10:00", none⟩

/-- Sample remote status carrying a set TIME_FINISH, the situation in which
the documented API quirk requires resuming through timeman.open. -/
def sampleFinishedStatus : RemoteWorkdayStatus :=
  ⟨"PAUSED", some 100, some "00:10:00", some "2025-11-26T18:00:00+05:00"⟩

lemma timeLeaksFields_eq_zero_of_invalid (h m s : Int)
    (hbad : (h < 0 ∨ m < 0 ∨ s < 0) ∨ (60 ≤ m ∨ 60 ≤ s)) :
    timeLeaksFields [some h, some m, some s] = 0 := by
  by_cases h1 : h < 0 ∨ m < 0 ∨ s < 0
  · simp [timeLeaksFields, h1]
  · rcases hbad with hb | hb
    · exact absurd hb h1
    · simp [timeLeaksFields, h1, hb]

lemma timeLeaksFields_eq_zero_of_malformed (l : List (Option Int))
    (hv : (match l with
           | [some h, some m, some s] =>
               decide (h < 0 ∨ m < 0 ∨ s < 0) || decide (60 ≤ m ∨ 60 ≤ s)
           | _ => true) = true) :
    timeLeaksFields l = 0 := by
  rcases l with _ | ⟨a, _ | ⟨b, _ | ⟨c, _ | ⟨d, tl⟩⟩⟩⟩
  · rfl
  · cases a <;> rfl
  · cases a <;> cases b <;> rfl
  · rcases a with _ | a
    · rfl
    · rcases b with _ | b
      · rfl
      · rcases c with _ | c
        · rfl
        · simp only [decide_eq_true_eq, Bool.or_eq_true] at hv
          exact timeLeaksFields_eq_zero_of_invalid a b c hv
  · cases a <;> cases b <;> cases c <;> rfl

/-- C7: parse_time_leaks maps the string 01:41:26 to 6086 seconds, and maps
every malformed input (a missing or non-string value, an empty string, a
string without exactly three colon-separated fields, a non-numeric field, a
negative component, or a minute or second component of 60 or more) to 0. -/
theorem claim_C7_parse_time_leaks :
    parse_time_leaks (some "01:41:26") = 6086 ∧
    ∀ v, isMalformedTimeLeaks v = true → parse_time_leaks v = 0 := by
  constructor
  · rfl
  · intro v hv
    match v with
    | none => rfl
    | some s =>
      by_cases hs : s = ""
      · simp [parse_time_leaks, hs]
      · simp only [isMalformedTimeLeaks, if_neg hs] at hv
        simp only [parse_time_leaks, if_neg hs]
        exact timeLeaksFields_eq_zero_of_malformed _ hv

/-- Witness for C7: the out-of-range string 99:99:99 is malformed and parses
to 0, by the main theorem applied at that concrete input. -/
theorem claim_C7_parse_time_leaks_witness :
    parse_time_leaks (some "99:99:99") = 0 :=
  claim_C7_parse_time_leaks.2 (some "99:99:99") (by decide)

lemma runWithBreaks_invariant (cfg : PomodoroConfig)
    (hw : 1 ≤ cfg.work_duration) (hs : 1 ≤ cfg.short_break) (hl : 1 ≤ cfg.long_break) :
    ∀ n : Nat,
      (runWithBreaks cfg n).1.is_running = true ∧
      1 ≤ (runWithBreaks cfg n).1.remaining_seconds ∧
      (runWithBreaks cfg n).1.state ≠ PomodoroState.stopped ∧
      (runWithBreaks cfg n).2 =
        (List.range (runWithBreaks cfg n).1.pomodoro_count).map
          (fun j => if (j + 1) % cfg.pomodoros_until_long_break = 0
                    then PomodoroState.longBreak else PomodoroState.shortBreak) := by
  intro n
  induction n with
  | zero =>
    refine ⟨rfl, ?_, by simp [runWithBreaks, pomodoroStart, pomodoroInit], ?_⟩
    · show (1 : Int) ≤ (cfg.work_duration : Int) * 60
      omega
    · simp [runWithBreaks, pomodoroStart, pomodoroInit]
  | succ n ih =>
    obtain ⟨ih1, ih2, ih3, ih4⟩ := ih
    have hstep : runWithBreaks cfg (n + 1) =
        ((pomodoroTick cfg (runWithBreaks cfg n).1),
         (runWithBreaks cfg n).2 ++
           (if (runWithBreaks cfg n).1.state = PomodoroState.work ∧
               isBreakState (pomodoroTick cfg (runWithBreaks cfg n).1).state = true
            then [(pomodoroTick cfg (runWithBreaks cfg n).1).state] else [])) := rfl
    rcases eq_or_lt_of_le ih2 with h1 | h1
    · -- exactly one second remained: this tick completes the phase
      have hzero : (runWithBreaks cfg n).1.remaining_seconds - 1 ≤ 0 := by omega
      rcases hst : (runWithBreaks cfg n).1.state with _ | _ | _ | _
      · exact absurd hst ih3
      · -- work completes: a break is entered and recorded
        have htick : pomodoroTick cfg (runWithBreaks cfg n).1 =
            startBreak cfg
              { (runWithBreaks cfg n).1 with
                remaining_seconds := (runWithBreaks cfg n).1.remaining_seconds - 1,
                pomodoro_count := (runWithBreaks cfg n).1.pomodoro_count + 1 } := by
          unfold pomodoroTick
          rw [if_pos ih1, if_pos hzero]
          simp only [hst]
        rw [hstep, htick]
        refine ⟨?_, ?_, ?_, ?_⟩
        · simp only [startBreak]
          split
          · exact ih1
          · exact ih1
        · simp only [startBreak]
          split
          · show (1 : Int) ≤ (cfg.long_break : Int) * 60
            omega
          · show (1 : Int) ≤ (cfg.short_break : Int) * 60
            omega
        · simp only [startBreak]
          split
          · show PomodoroState.longBreak ≠ PomodoroState.stopped
            decide
          · show PomodoroState.shortBreak ≠ PomodoroState.stopped
            decide
        · by_cases hmod :
              ((runWithBreaks cfg n).1.pomodoro_count + 1) % cfg.pomodoros_until_long_break = 0
          · simp [startBreak, hmod, hst, isBreakState, ih4, List.range_succ]
          · simp [startBreak, hmod, hst, isBreakState, ih4, List.range_succ]
      · -- short break ends
        have htick : pomodoroTick cfg (runWithBreaks cfg n).1 =
            endBreak cfg
              { (runWithBreaks cfg n).1 with
                remaining_seconds := (runWithBreaks cfg n).1.remaining_seconds - 1 } := by
          unfold pomodoroTick
          rw [if_pos ih1, if_pos hzero]
          simp only [hst]
        rw [hstep, htick]
        refine ⟨?_, ?_, ?_, ?_⟩
        · exact ih1
        · show (1 : Int) ≤ (cfg.work_duration : Int) * 60
          omega
        · show PomodoroState.work ≠ PomodoroState.stopped
          decide
        · simp [endBreak, hst, isBreakState, ih4]
      · -- long break ends
        have htick : pomodoroTick cfg (runWithBreaks cfg n).1 =
            endBreak cfg
              { (runWithBreaks cfg n).1 with
                remaining_seconds := (runWithBreaks cfg n).1.remaining_seconds - 1 } := by
          unfold pomodoroTick
          rw [if_pos ih1, if_pos hzero]
          simp only [hst]
        rw [hstep, htick]
        refine ⟨?_, ?_, ?_, ?_⟩
        · exact ih1
        · show (1 : Int) ≤ (cfg.work_duration : Int) * 60
          omega
        · show PomodoroState.work ≠ PomodoroState.stopped
          decide
        · simp [endBreak, hst, isBreakState, ih4]
    · -- more than one second remained: plain decrement, same phase
      have htick : pomodoroTick cfg (runWithBreaks cfg n).1 =
          { (runWithBreaks cfg n).1 with
            remaining_seconds := (runWithBreaks cfg n).1.remaining_seconds - 1 } := by
        unfold pomodoroTick
        rw [if_pos ih1,
            if_neg (show ¬ ((runWithBreaks cfg n).1.remaining_seconds - 1 ≤ 0) by omega)]
      rw [hstep, htick]
      refine ⟨ih1, ?_, ih3, ?_⟩
      · show (1 : Int) ≤ (runWithBreaks cfg n).1.remaining_seconds - 1
        omega
      · have hnob : ¬ ((runWithBreaks cfg n).1.state = PomodoroState.work ∧
            isBreakState ({ (runWithBreaks cfg n).1 with
              remaining_seconds := (runWithBreaks cfg n).1.remaining_seconds - 1 }
                : PomodoroTimer).state = true) := by
          rintro ⟨hw2, hb⟩
          simp [isBreakState, hw2] at hb
        rw [if_neg hnob]
        simpa using ih4

lemma startBreak_count (cfg : PomodoroConfig) (t : PomodoroTimer) :
    (startBreak cfg t).pomodoro_count = t.pomodoro_count := by
  unfold startBreak
  split
  · rfl
  · rfl

lemma startBreak_isBreak (cfg : PomodoroConfig) (t : PomodoroTimer) :
    isBreakState (startBreak cfg t).state = true := by
  unfold startBreak
  split
  · rfl
  · rfl

/-- Counterexample to C4 as stated: with pomodoros_until_long_break = 2 and
one-minute durations, the tick-only run from the initial state has completed
more than 2 work sessions after 300 ticks, yet the 3rd break entered — the
(N+1)th with N = 2 — is the short break: the breaks entered are short, long,
short, so the long break is the 2nd, i.e. the N-th. -/
theorem claim_C4_counterexample :
    2 ≤ (runWithBreaks cexPomodoroConfig 300).1.pomodoro_count ∧
    ((runWithBreaks cexPomodoroConfig 300).2)[2]? = some PomodoroState.shortBreak ∧
    (runWithBreaks cexPomodoroConfig 300).2 =
      [PomodoroState.shortBreak, PomodoroState.longBreak, PomodoroState.shortBreak] := by
  refine ⟨by decide, by decide, by decide⟩

/-- C4 amended: with pomodoros_until_long_break = N at least 1 and positive
durations, once the tick-only run from the initial state has completed N work
sessions, the N-th break entered is LONG_BREAK. -/
theorem claim_C4_nth_break_is_long (cfg : PomodoroConfig)
    (hw : 1 ≤ cfg.work_duration) (hs : 1 ≤ cfg.short_break) (hl : 1 ≤ cfg.long_break)
    (hN : 1 ≤ cfg.pomodoros_until_long_break) (n : Nat)
    (hc : cfg.pomodoros_until_long_break ≤ (runWithBreaks cfg n).1.pomodoro_count) :
    ((runWithBreaks cfg n).2)[cfg.pomodoros_until_long_break - 1]? =
      some PomodoroState.longBreak := by
  obtain ⟨-, -, -, h4⟩ := runWithBreaks_invariant cfg hw hs hl n
  rw [h4, List.getElem?_map,
      List.getElem?_range (show cfg.pomodoros_until_long_break - 1 <
        (runWithBreaks cfg n).1.pomodoro_count by omega)]
  have hNN : cfg.pomodoros_until_long_break - 1 + 1 = cfg.pomodoros_until_long_break := by
    omega
  simp [hNN]

/-- Witness for the amended C4: with long-break cadence 2 and one-minute
durations, after 180 ticks two sessions are complete and the 2nd break entered
is the long break. -/
theorem claim_C4_nth_break_is_long_witness :
    ((runWithBreaks cexPomodoroConfig 180).2)[1]? = some PomodoroState.longBreak :=
  claim_C4_nth_break_is_long cexPomodoroConfig (by decide) (by decide) (by decide)
    (by decide) 180 (by decide)

/-- C5: a tick of a running timer with at least one second left decrements
remaining_seconds by exactly one; if that brings it to zero in work, the
completed count is incremented and the timer enters the long break exactly
when the new count is a multiple of the configured cadence (short break
otherwise), with remaining_seconds set to the chosen break duration; if it
reaches zero in a break, the timer returns to work with remaining_seconds
reset to the work duration. -/
theorem claim_C5_tick_transitions (cfg : PomodoroConfig) (t : PomodoroTimer)
    (hrun : t.is_running = true) (hrem : 1 ≤ t.remaining_seconds) :
    (1 < t.remaining_seconds →
      pomodoroTick cfg t = { t with remaining_seconds := t.remaining_seconds - 1 }) ∧
    (t.remaining_seconds = 1 → t.state = PomodoroState.work →
      pomodoroTick cfg t =
        (if (t.pomodoro_count + 1) % cfg.pomodoros_until_long_break = 0 then
          { t with state := PomodoroState.longBreak,
                   remaining_seconds := (cfg.long_break : Int) * 60,
                   pomodoro_count := t.pomodoro_count + 1 }
        else
          { t with state := PomodoroState.shortBreak,
                   remaining_seconds := (cfg.short_break : Int) * 60,
                   pomodoro_count := t.pomodoro_count + 1 })) ∧
    (t.remaining_seconds = 1 →
      (t.state = PomodoroState.shortBreak ∨ t.state = PomodoroState.longBreak) →
      pomodoroTick cfg t = { t with state := PomodoroState.work,
                                    remaining_seconds := (cfg.work_duration : Int) * 60 }) := by
  refine ⟨?_, ?_, ?_⟩
  · intro h1
    unfold pomodoroTick
    rw [if_pos hrun, if_neg (show ¬ (t.remaining_seconds - 1 ≤ 0) by omega)]
  · intro h1 hw2
    unfold pomodoroTick
    rw [if_pos hrun, if_pos (show t.remaining_seconds - 1 ≤ 0 by omega), hw2]
    by_cases hmod : (t.pomodoro_count + 1) % cfg.pomodoros_until_long_break = 0
    · rw [if_pos hmod]
      simp [startBreak, hmod]
    · rw [if_neg hmod]
      simp [startBreak, hmod]
  · intro h1 hb
    unfold pomodoroTick
    rcases hb with hb | hb
    · rw [if_pos hrun, if_pos (show t.remaining_seconds - 1 ≤ 0 by omega), hb]
      simp [endBreak]
    · rw [if_pos hrun, if_pos (show t.remaining_seconds - 1 ≤ 0 by omega), hb]
      simp [endBreak]

/-- Witness for C5: with the source default configuration, ticking a running
work state at one remaining second and three completed sessions completes the
4th session and starts the 15-minute long break. -/
theorem claim_C5_tick_transitions_witness :
    pomodoroTick ⟨25, 5, 15, 4⟩ ⟨PomodoroState.work, 1, 3, true⟩ =
      ⟨PomodoroState.longBreak, 900, 4, true⟩ := by
  have h := (claim_C5_tick_transitions ⟨25, 5, 15, 4⟩ ⟨PomodoroState.work, 1, 3, true⟩
    rfl (by decide)).2.1 rfl rfl
  rw [h]
  decide

/-- C9: skip preserves pomodoro_count in every state, moves work into a break
and a break back to work, is the identity in the stopped state, and a tick
changes pomodoro_count only when taken in a running work state with at most
one second remaining, in which case it increments it by one. -/
theorem claim_C9_skip_frame (cfg : PomodoroConfig) (t : PomodoroTimer) :
    ((pomodoroSkip cfg t).pomodoro_count = t.pomodoro_count) ∧
    (t.state = PomodoroState.work → isBreakState (pomodoroSkip cfg t).state = true) ∧
    ((t.state = PomodoroState.shortBreak ∨ t.state = PomodoroState.longBreak) →
      (pomodoroSkip cfg t).state = PomodoroState.work) ∧
    (t.state = PomodoroState.stopped → pomodoroSkip cfg t = t) ∧
    ((pomodoroTick cfg t).pomodoro_count =
      if t.is_running = true ∧ t.state = PomodoroState.work ∧ t.remaining_seconds ≤ 1
      then t.pomodoro_count + 1 else t.pomodoro_count) := by
  refine ⟨?_, ?_, ?_, ?_, ?_⟩
  · rcases hst : t.state with _ | _ | _ | _
    · simp [pomodoroSkip, hst]
    · simp [pomodoroSkip, hst, startBreak_count]
    · simp [pomodoroSkip, hst, endBreak]
    · simp [pomodoroSkip, hst, endBreak]
  · intro hw2
    simp [pomodoroSkip, hw2, startBreak_isBreak]
  · intro hb
    rcases hb with hb | hb
    · simp [pomodoroSkip, hb, endBreak]
    · simp [pomodoroSkip, hb, endBreak]
  · intro hstop
    simp [pomodoroSkip, hstop]
  · by_cases hr : t.is_running = true
    · by_cases hz : t.remaining_seconds ≤ 1
      · rcases hst : t.state with _ | _ | _ | _
        · have ht : pomodoroTick cfg t =
              { t with remaining_seconds := t.remaining_seconds - 1 } := by
            unfold pomodoroTick
            rw [if_pos hr, if_pos (show t.remaining_seconds - 1 ≤ 0 by omega), hst]
          rw [ht]
          simp [hst, hz]
        · have ht : pomodoroTick cfg t =
              startBreak cfg
                { t with
                  remaining_seconds := t.remaining_seconds - 1,
                  pomodoro_count := t.pomodoro_count + 1 } := by
            unfold pomodoroTick
            rw [if_pos hr, if_pos (show t.remaining_seconds - 1 ≤ 0 by omega), hst]
          rw [ht, startBreak_count]
          simp [hr, hst, hz]
        · have ht : pomodoroTick cfg t =
              endBreak cfg { t with remaining_seconds := t.remaining_seconds - 1 } := by
            unfold pomodoroTick
            rw [if_pos hr, if_pos (show t.remaining_seconds - 1 ≤ 0 by omega), hst]
          rw [ht]
          simp [endBreak, hst, hz]
        · have ht : pomodoroTick cfg t =
              endBreak cfg { t with remaining_seconds := t.remaining_seconds - 1 } := by
            unfold pomodoroTick
            rw [if_pos hr, if_pos (show t.remaining_seconds - 1 ≤ 0 by omega), hst]
          rw [ht]
          simp [endBreak, hst, hz]
      · have ht : pomodoroTick cfg t =
            { t with remaining_seconds := t.remaining_seconds - 1 } := by
          unfold pomodoroTick
          rw [if_pos hr, if_neg (show ¬ (t.remaining_seconds - 1 ≤ 0) by omega)]
        rw [ht]
        simp [hz]
    · have ht : pomodoroTick cfg t = t := by
        unfold pomodoroTick
        rw [if_neg hr]
      rw [ht]
      simp [hr]

/-- Witness for C9: skipping the very first running work session enters a
break without touching the zero completed count. -/
theorem claim_C9_skip_frame_witness :
    (pomodoroSkip ⟨25, 5, 15, 4⟩ ⟨PomodoroState.work, 1500, 0, true⟩).pomodoro_count = 0 ∧
    isBreakState (pomodoroSkip ⟨25, 5, 15, 4⟩ ⟨PomodoroState.work, 1500, 0, true⟩).state =
      true :=
  ⟨(claim_C9_skip_frame ⟨25, 5, 15, 4⟩ ⟨PomodoroState.work, 1500, 0, true⟩).1,
   (claim_C9_skip_frame ⟨25, 5, 15, 4⟩ ⟨PomodoroState.work, 1500, 0, true⟩).2.1 rfl⟩

lemma workdayOpenNewDay_openCalled (st : LocalWorkdayState) (openOk : Bool)
    (newStatus : Option RemoteWorkdayStatus) (now : Int) :
    (workdayOpenNewDay st openOk newStatus now).openCalled = true := by
  unfold workdayOpenNewDay
  rcases openOk with _ | _
  · rfl
  · rcases newStatus with _ | ns
    · rfl
    · rcases hts : ns.TIME_START with _ | t1
      · simp [hts]
      · simp [hts]

lemma workdayStart_sync_openCalled_false (st : LocalWorkdayState)
    (s : RemoteWorkdayStatus) (openOk : Bool) (newStatus : Option RemoteWorkdayStatus)
    (now t0 : Int) (hts : s.TIME_START = some t0)
    (hcond : ¬ (s.STATUS = "CLOSED" ∨ 86400 < now - t0)) :
    (workdayStart true st (some s) openOk newStatus now).openCalled = false := by
  have hnc : ¬ s.STATUS = "CLOSED" := fun h => hcond (Or.inl h)
  have hn24 : ¬ (86400 < now - t0) := fun h => hcond (Or.inr h)
  unfold workdayStart
  by_cases hp : s.STATUS = "PAUSED" <;> simp [hts, hnc, hn24, hp]

lemma workdayStart_eq_openNewDay (st : LocalWorkdayState)
    (status : Option RemoteWorkdayStatus) (openOk : Bool)
    (newStatus : Option RemoteWorkdayStatus) (now : Int)
    (hop : (workdayStart true st status openOk newStatus now).openCalled = true) :
    workdayStart true st status openOk newStatus now =
      workdayOpenNewDay st openOk newStatus now := by
  rcases status with _ | s
  · rfl
  rcases hts : s.TIME_START with _ | t0
  · unfold workdayStart
    simp [hts]
  by_cases hcond : s.STATUS = "CLOSED" ∨ 86400 < now - t0
  · unfold workdayStart
    simp [hts, hcond]
  · have hfalse := workdayStart_sync_openCalled_false st s openOk newStatus now t0 hts hcond
    rw [hop] at hfalse
    exact absurd hfalse (by simp)

/-- C1: with the webhook configured, WorkdayManager.start issues the remote
open call exactly when the fetched status has no TIME_START, is CLOSED, or has
a TIME_START more than 24 hours in the past; in every other case it adopts the
remote day — local start_time becomes the remote TIME_START,
time_leaks_seconds the parsed remote TIME_LEAKS, and the paused flag records
whether STATUS is PAUSED. When a new day is opened successfully, the local
accumulators come from the freshly fetched status, or are reset to now and 0
when that fetch yields nothing usable. -/
theorem claim_C1_start_workday (st : LocalWorkdayState)
    (status : Option RemoteWorkdayStatus) (openOk : Bool)
    (newStatus : Option RemoteWorkdayStatus) (now : Int) :
    ((workdayStart true st status openOk newStatus now).openCalled = true ↔
      status = none ∨ ∃ s, status = some s ∧
        (s.TIME_START = none ∨ s.STATUS = "CLOSED" ∨
         ∃ t0, s.TIME_START = some t0 ∧ 86400 < now - t0)) ∧
    (∀ s t0, status = some s → s.TIME_START = some t0 → s.STATUS ≠ "CLOSED" →
      now - t0 ≤ 86400 →
      (workdayStart true st status openOk newStatus now).ok = true ∧
      (workdayStart true st status openOk newStatus now).st.start_time = some t0 ∧
      (workdayStart true st status openOk newStatus now).st.time_leaks_seconds =
        parse_time_leaks (some (s.TIME_LEAKS.getD "00:00:00")) ∧
      (workdayStart true st status openOk newStatus now).st.is_running = true ∧
      ((workdayStart true st status openOk newStatus now).st.is_paused = true ↔
        s.STATUS = "PAUSED")) ∧
    (openOk = true →
      (workdayStart true st status openOk newStatus now).openCalled = true →
      (workdayStart true st status openOk newStatus now).ok = true ∧
      (workdayStart true st status openOk newStatus now).st.is_running = true ∧
      (workdayStart true st status openOk newStatus now).st.is_paused = false ∧
      ((∃ ns t1, newStatus = some ns ∧ ns.TIME_START = some t1 ∧
          (workdayStart true st status openOk newStatus now).st.start_time = some t1 ∧
          (workdayStart true st status openOk newStatus now).st.time_leaks_seconds =
            parse_time_leaks (some (ns.TIME_LEAKS.getD "00:00:00"))) ∨
       ((newStatus = none ∨ ∃ ns, newStatus = some ns ∧ ns.TIME_START = none) ∧
        (workdayStart true st status openOk newStatus now).st.start_time = some now ∧
        (workdayStart true st status openOk newStatus now).st.time_leaks_seconds = 0))) := by
  refine ⟨⟨?_, ?_⟩, ?_, ?_⟩
  · -- the open call implies one of the opening conditions
    intro hop
    rcases status with _ | s
    · exact Or.inl rfl
    refine Or.inr ⟨s, rfl, ?_⟩
    rcases hts : s.TIME_START with _ | t0
    · exact Or.inl rfl
    by_cases hcl : s.STATUS = "CLOSED"
    · exact Or.inr (Or.inl hcl)
    by_cases hexp : 86400 < now - t0
    · exact Or.inr (Or.inr ⟨t0, rfl, hexp⟩)
    have hfalse := workdayStart_sync_openCalled_false st s openOk newStatus now t0 hts
      (by rintro (hc | hc)
          · exact hcl hc
          · exact hexp hc)
    rw [hop] at hfalse
    exact absurd hfalse (by simp)
  · -- each opening condition leads to the open call
    intro hcase
    rcases hcase with hnone | ⟨s, hs, hrest⟩
    · subst hnone
      exact workdayOpenNewDay_openCalled st openOk newStatus now
    subst hs
    rcases hrest with hts | hcl | ⟨t0, hts, hexp⟩
    · have heq : workdayStart true st (some s) openOk newStatus now =
          workdayOpenNewDay st openOk newStatus now := by
        unfold workdayStart
        simp [hts]
      rw [heq]
      exact workdayOpenNewDay_openCalled st openOk newStatus now
    · rcases hts2 : s.TIME_START with _ | t0
      · have heq : workdayStart true st (some s) openOk newStatus now =
            workdayOpenNewDay st openOk newStatus now := by
          unfold workdayStart
          simp [hts2]
        rw [heq]
        exact workdayOpenNewDay_openCalled st openOk newStatus now
      · have heq : workdayStart true st (some s) openOk newStatus now =
            workdayOpenNewDay st openOk newStatus now := by
          unfold workdayStart
          simp [hts2, hcl]
        rw [heq]
        exact workdayOpenNewDay_openCalled st openOk newStatus now
    · have heq : workdayStart true st (some s) openOk newStatus now =
          workdayOpenNewDay st openOk newStatus now := by
        unfold workdayStart
        simp [hts, hexp]
      rw [heq]
      exact workdayOpenNewDay_openCalled st openOk newStatus now
  · -- the synchronisation case
    intro s t0 hs hts hcl h24
    subst hs
    have hn24 : ¬ (86400 < now - t0) := by omega
    by_cases hp : s.STATUS = "PAUSED"
    · have heq : workdayStart true st (some s) openOk newStatus now =
          ⟨true,
           { st with
             start_time := some t0,
             time_leaks_seconds := parse_time_leaks (some (s.TIME_LEAKS.getD "00:00:00")),
             is_running := true, is_paused := true, pause_start_time := some now },
           false⟩ := by
        unfold workdayStart
        simp [hts, hcl, hn24, hp]
      rw [heq]
      exact ⟨rfl, rfl, rfl, rfl, by simp [hp]⟩
    · have heq : workdayStart true st (some s) openOk newStatus now =
          ⟨true,
           { st with
             start_time := some t0,
             time_leaks_seconds := parse_time_leaks (some (s.TIME_LEAKS.getD "00:00:00")),
             is_running := true, is_paused := false },
           false⟩ := by
        unfold workdayStart
        simp [hts, hcl, hn24, hp]
      rw [heq]
      exact ⟨rfl, rfl, rfl, rfl, by simp [hp]⟩
  · -- the successful new-day case
    intro hok hop
    rw [workdayStart_eq_openNewDay st status openOk newStatus now hop]
    subst hok
    rcases newStatus with _ | ns
    · have heq : workdayOpenNewDay st true none now =
          ⟨true,
           { st with start_time := some now, time_leaks_seconds := 0,
                     is_running := true, is_paused := false },
           true⟩ := by
        unfold workdayOpenNewDay
        simp
      rw [heq]
      exact ⟨rfl, rfl, rfl, Or.inr ⟨Or.inl rfl, rfl, rfl⟩⟩
    · rcases hts1 : ns.TIME_START with _ | t1
      · have heq : workdayOpenNewDay st true (some ns) now =
            ⟨true,
             { st with start_time := some now, time_leaks_seconds := 0,
                       is_running := true, is_paused := false },
             true⟩ := by
          unfold workdayOpenNewDay
          simp [hts1]
        rw [heq]
        exact ⟨rfl, rfl, rfl, Or.inr ⟨Or.inr ⟨ns, rfl, hts1⟩, rfl, rfl⟩⟩
      · have heq : workdayOpenNewDay st true (some ns) now =
            ⟨true,
             { st with
               start_time := some t1,
               time_leaks_seconds := parse_time_leaks (some (ns.TIME_LEAKS.getD "00:00:00")),
               is_running := true, is_paused := false },
             true⟩ := by
          unfold workdayOpenNewDay
          simp [hts1]
        rw [heq]
        exact ⟨rfl, rfl, rfl, Or.inl ⟨ns, t1, rfl, hts1, rfl, rfl⟩⟩

/-- Witness for C1: starting against the sample open status at instant 200
adopts the remote day: no open call, start_time 100, leak total 600 seconds,
running and not paused. -/
theorem claim_C1_start_workday_witness :
    (workdayStart true sampleRunningState (some sampleOpenStatus) true none 200).ok = true ∧
    (workdayStart true sampleRunningState (some sampleOpenStatus) true none
      200).st.start_time = some 100 ∧
    (workdayStart true sampleRunningState (some sampleOpenStatus) true none
      200).st.time_leaks_seconds = 600 ∧
    (workdayStart true sampleRunningState (some sampleOpenStatus) true none
      200).st.is_paused = false := by
  have h := (claim_C1_start_workday sampleRunningState (some sampleOpenStatus) true none
    200).2.1 sampleOpenStatus 100 rfl rfl (by decide) (by decide)
  refine ⟨h.1, h.2.1, ?_, ?_⟩
  · rw [h.2.2.1]
    decide
  · have hiff := h.2.2.2.2
    rcases hb : (workdayStart true sampleRunningState (some sampleOpenStatus) true none
      200).st.is_paused with _ | _
    · rfl
    · exact absurd (hiff.mp hb) (by decide)

/-- C3: in every paused state with pause start p and cached remote leak total
T, the pause time reported at instant now equals T plus the elapsed seconds
e = now - p, rendered as hours, minutes and seconds by floor division — the
display is recomputed from the two anchors alone on each query. -/
theorem claim_C3_pause_display (st : LocalWorkdayState) (now p e : Int) (T : Nat)
    (hp : st.is_paused = true) (hps : st.pause_start_time = some p)
    (hT : st.time_leaks_seconds = T) (he : now - p = e) :
    get_pause_time st now =
      (((T : Int) + e).fdiv 3600,
       ((((T : Int) + e).fmod 3600).fdiv 60, ((T : Int) + e).fmod 60)) := by
  subst he
  subst hT
  simp [get_pause_time, hp, hps]

/-- Witness for C3: paused at instant 1000 with a cached total of 600 seconds,
the display at instant 1100 reads 0 hours, 11 minutes, 40 seconds. -/
theorem claim_C3_pause_display_witness :
    get_pause_time samplePausedState 1100 = (0, (11, 40)) := by
  have h := claim_C3_pause_display samplePausedState 1100 1000 100 600 rfl rfl rfl rfl
  rw [h]
  decide

/-- C10: the displays never go negative: the work display is (0,0,0) when not
running or without a start time and whenever the cached leak total reaches the
elapsed time, and its components are nonnegative in every state; the pause
display is (0,0,0) when not paused or without a pause start, and its
components are nonnegative whenever the pause began no later than now. -/
theorem claim_C10_display_nonneg :
    (∀ st now, st.is_running = false → get_work_time st now = (0, (0, 0))) ∧
    (∀ st now, st.start_time = none → get_work_time st now = (0, (0, 0))) ∧
    (∀ st now t0, st.start_time = some t0 → now - t0 ≤ (st.time_leaks_seconds : Int) →
      get_work_time st now = (0, (0, 0))) ∧
    (∀ st now, 0 ≤ (get_work_time st now).1 ∧ 0 ≤ (get_work_time st now).2.1 ∧
      0 ≤ (get_work_time st now).2.2) ∧
    (∀ st now, st.is_paused = false → get_pause_time st now = (0, (0, 0))) ∧
    (∀ st now, st.pause_start_time = none → get_pause_time st now = (0, (0, 0))) ∧
    (∀ st now p, st.pause_start_time = some p → p ≤ now →
      0 ≤ (get_pause_time st now).1 ∧ 0 ≤ (get_pause_time st now).2.1 ∧
      0 ≤ (get_pause_time st now).2.2) := by
  refine ⟨?_, ?_, ?_, ?_, ?_, ?_, ?_⟩
  · intro st now hr
    simp [get_work_time, hr]
  · intro st now hs
    rcases hr : st.is_running with _ | _ <;> simp [get_work_time, hr, hs]
  · intro st now t0 hs hle
    rcases hr : st.is_running with _ | _
    · simp [get_work_time, hr]
    · have hw0 : (if now - t0 - (st.time_leaks_seconds : Int) < 0 then (0 : Int)
          else now - t0 - (st.time_leaks_seconds : Int)) = 0 := by
        split
        · rfl
        · omega
      simp only [get_work_time, hr, hs, hw0]
      decide
  · intro st now
    rcases hr : st.is_running with _ | _
    · simp [get_work_time, hr]
    · rcases hs : st.start_time with _ | t0
      · simp [get_work_time, hr, hs]
      · simp only [get_work_time, hr, hs]
        have hw : (0 : Int) ≤
            (if now - t0 - (st.time_leaks_seconds : Int) < 0 then 0
             else now - t0 - (st.time_leaks_seconds : Int)) := by
          split
          · omega
          · omega
        refine ⟨Int.fdiv_nonneg hw (by omega), Int.fdiv_nonneg ?_ (by omega),
          Int.fmod_nonneg hw (by omega)⟩
        exact Int.fmod_nonneg hw (by omega)
  · intro st now hp
    simp [get_pause_time, hp]
  · intro st now hps
    rcases hp : st.is_paused with _ | _ <;> simp [get_pause_time, hp, hps]
  · intro st now p hps hle
    rcases hp : st.is_paused with _ | _
    · simp [get_pause_time, hp]
    · simp only [get_pause_time, hp, hps]
      have hw : (0 : Int) ≤ (st.time_leaks_seconds : Int) + (now - p) := by omega
      refine ⟨Int.fdiv_nonneg hw (by omega), Int.fdiv_nonneg ?_ (by omega),
        Int.fmod_nonneg hw (by omega)⟩
      exact Int.fmod_nonneg hw (by omega)

/-- Witness for C10: in the running sample state at instant 100 the cached
leak total 300 exceeds the elapsed 100 seconds, so the clamped work display is
zero. -/
theorem claim_C10_display_nonneg_witness :
    get_work_time sampleRunningState 100 = (0, (0, 0)) :=
  claim_C10_display_nonneg.2.2.1 sampleRunningState 100 0 rfl (by decide)

/-- Counterexample to C6 as stated: stopping the running sample state while
the remote status is OPENED and the close call fails does not return failure
and does not leave the state unchanged — it reports success and clears
start_time and time_leaks_seconds. -/
theorem claim_C6_counterexample :
    (workdayStop sampleRunningState (some sampleOpenStatus) false).1 = true ∧
    (workdayStop sampleRunningState (some sampleOpenStatus) false).2 ≠
      sampleRunningState := by
  refine ⟨by decide, by decide⟩

/-- C6 amended: pause returns failure with every local field unchanged when
the status fetch yields nothing or the timeman.pause call fails; resume
returns failure with every local field unchanged when the chosen remote call
fails and also when that call succeeds but the refetched status is missing or
not OPENED — while a missing status before the call does not abort resume, it
merely selects the timeman.pause endpoint and resume can still succeed; start
fails without mutation when the open call it issues fails (a missing status
does not fail the operation: it opens a new day instead); stop fails without
mutation on a missing status, but a failing close call is treated as an
already closed day — the state is reset (start_time, time_leaks_seconds,
pause_start_time cleared) and success is reported. -/
theorem claim_C6_failure_handling :
    (∀ st b now, workdayPause st none b now = (false, st)) ∧
    (∀ st s now, workdayPause st (some s) false now = (false, st)) ∧
    (∀ st sb sa, workdayResume st sb false sa = (false, st, resumeEndpointChoice sb)) ∧
    (∀ st sb, workdayResume st sb true none = (false, st, resumeEndpointChoice sb)) ∧
    (∀ st sb sa, sa.STATUS ≠ "OPENED" →
      workdayResume st sb true (some sa) = (false, st, resumeEndpointChoice sb)) ∧
    (∀ st sa, sa.STATUS = "OPENED" →
      (workdayResume st none true (some sa)).1 = true) ∧
    (∀ st status newStatus now,
      (workdayStart true st status false newStatus now).openCalled = true →
      workdayStart true st status false newStatus now = ⟨false, st, true⟩) ∧
    (∀ st b, workdayStop st none b = (false, st)) ∧
    (∀ st s, s.STATUS ≠ "CLOSED" →
      workdayStop st (some s) false = (true, workdayResetState st)) := by
  refine ⟨?_, ?_, ?_, ?_, ?_, ?_, ?_, ?_, ?_⟩
  · intro st b now
    rfl
  · intro st s now
    simp [workdayPause]
  · intro st sb sa
    rfl
  · intro st sb
    rfl
  · intro st sb sa hop
    simp [workdayResume, hop]
  · intro st sa hop
    simp [workdayResume, hop]
  · intro st status newStatus now hop
    rw [workdayStart_eq_openNewDay st status false newStatus now hop]
    rfl
  · intro st b
    rfl
  · intro st s hcl
    simp [workdayStop, hcl]

/-- Witness for C6 amended: a resume whose remote call succeeds but whose
refetched status is still PAUSED (not OPENED) returns failure with the paused
sample state untouched, and stopping the paused sample state with a failing
close call against an OPENED remote status reports success with the reset
state. -/
theorem claim_C6_failure_handling_witness :
    workdayResume samplePausedState (some sampleOpenStatus) true
      (some sampleFinishedStatus) =
      (false, samplePausedState, resumeEndpointChoice (some sampleOpenStatus)) ∧
    workdayStop samplePausedState (some sampleOpenStatus) false =
      (true, workdayResetState samplePausedState) :=
  ⟨claim_C6_failure_handling.2.2.2.2.1 samplePausedState (some sampleOpenStatus)
      sampleFinishedStatus (by decide),
   claim_C6_failure_handling.2.2.2.2.2.2.2.2 samplePausedState sampleOpenStatus
      (by decide)⟩

/-- C2: BitrixClient.resume_workday (and the identical branch in
resume_workday and on_pomodoro_break_end of src/bitrix_tracker.py) POSTs to
timeman.open exactly when the fetched status carries a set TIME_FINISH and to
timeman.pause otherwise; the refactored tracker resume path instead always
POSTs to timeman.pause, so on a status with TIME_FINISH set it diverges from
that rule. -/
theorem claim_C2_resume_endpoint :
    (∀ s, pyTruthyStr s.TIME_FINISH = true →
      resumeEndpointChoice (some s) = "timeman.open") ∧
    (∀ s, pyTruthyStr s.TIME_FINISH = false →
      resumeEndpointChoice (some s) = "timeman.pause") ∧
    (resumeEndpointChoice none = "timeman.pause") ∧
    (refactoredResumeEndpoint = "timeman.pause") ∧
    (refactoredResumeEndpoint ≠ resumeEndpointChoice (some sampleFinishedStatus)) := by
  refine ⟨?_, ?_, rfl, rfl, by decide⟩
  · intro s hf
    simp [resumeEndpointChoice, hf]
  · intro s hf
    simp [resumeEndpointChoice, hf]

/-- Witness for C2: on the sample status with TIME_FINISH set the documented
branch chooses timeman.open. -/
theorem claim_C2_resume_endpoint_witness :
    resumeEndpointChoice (some sampleFinishedStatus) = "timeman.open" :=
  claim_C2_resume_endpoint.1 sampleFinishedStatus (by decide)

/-- C8: the break callbacks gate the remote pause only on the boolean
auto_pause_bitrix: with bitrix_pause_mode long_breaks_only the entry into a
short break still issues the remote pause while the workday runs unpaused, and
the decision is independent of both the stored mode and the break type — so no
configuration pauses on long-break entry but not on short-break entry. -/
theorem claim_C8_pause_policy_ignored :
    (onBreakStartIssuesPause ⟨true, "long_breaks_only"⟩ true false
      PomodoroState.shortBreak = true) ∧
    (∀ a mode mode2 r p b b2,
      onBreakStartIssuesPause ⟨a, mode⟩ r p b =
        onBreakStartIssuesPause ⟨a, mode2⟩ r p b2) ∧
    (∀ a mode mode2 r p,
      onBreakEndIssuesResume ⟨a, mode⟩ r p = onBreakEndIssuesResume ⟨a, mode2⟩ r p) := by
  refine ⟨rfl, ?_, ?_⟩
  · intro a mode mode2 r p b b2
    rfl
  · intro a mode mode2 r p
    rfl

end BitrixTracker
